import Mathlib

/-!
Verification of the light-tracing sample generator
(renderer/kernel/lighting/lighttracing/lighttracingsamplegenerator.cpp).

The C++ code is shallowly embedded over exact rationals: every float/double
quantity becomes a rational, machine arithmetic is modelled exactly.  The
collaborators that the generator calls but whose sources are not part of the
three given files (camera, visibility tracer, light sampler, EDFs, the generic
path-tracer engine, the sampling context and the sample-generator base class)
are modelled as deterministic functions supplied in an `Env` record, following
the collaborator contracts stated in the specification.
-/

namespace LightTracing

/-- Two-component vector over exact rationals (models Vector2d / Vector2f). -/
structure Vec2 where
  x : ℚ
  y : ℚ
deriving DecidableEq

/-- Three-component vector over exact rationals (models Vector3d / Vector3f). -/
structure Vec3 where
  x : ℚ
  y : ℚ
  z : ℚ
deriving DecidableEq

/-- Dot product of two 3-vectors (foundation/math/vector.h). -/
def Vec3.dot (a b : Vec3) : ℚ :=
  a.x * b.x + a.y * b.y + a.z * b.z

/-- Componentwise negation. -/
def Vec3.neg (a : Vec3) : Vec3 :=
  ⟨-a.x, -a.y, -a.z⟩

/-- Componentwise subtraction. -/
def Vec3.sub (a b : Vec3) : Vec3 :=
  ⟨a.x - b.x, a.y - b.y, a.z - b.z⟩

/-- Componentwise addition. -/
def Vec3.add (a b : Vec3) : Vec3 :=
  ⟨a.x + b.x, a.y + b.y, a.z + b.z⟩

/-- Scalar multiplication. -/
def Vec3.smul (k : ℚ) (a : Vec3) : Vec3 :=
  ⟨k * a.x, k * a.y, k * a.z⟩

/-- Division of a vector by a scalar. -/
def Vec3.sdiv (a : Vec3) (k : ℚ) : Vec3 :=
  ⟨a.x / k, a.y / k, a.z / k⟩

/-- Scalar multiplication of a 2-vector. -/
def Vec2.smul (k : ℚ) (a : Vec2) : Vec2 :=
  ⟨k * a.x, k * a.y⟩

/-- Orthonormal basis (models foundation Basis3d: a normal and two tangents). -/
structure Basis3 where
  normal : Vec3
  tangent_u : Vec3
  tangent_v : Vec3
deriving DecidableEq

/-- Flips vector `v` into the hemisphere of `ref` (foundation/math/vector.h
flip_to_same_hemisphere: returns `v` when dot(v, ref) is nonnegative, `-v`
otherwise). -/
def flip_to_same_hemisphere (v ref : Vec3) : Vec3 :=
  if 0 ≤ Vec3.dot v ref then v else Vec3.neg v

/-- Radiometric spectrum, modelled in its RGB mode as three exact rational
channels (renderer Spectrum; `is_rgb` holds, so `emit_sample` reads the three
channels back unchanged). -/
structure Spectrum where
  r : ℚ
  g : ℚ
  b : ℚ
deriving DecidableEq

/-- Componentwise product (operator `*=` on Spectrum). -/
def Spectrum.mul (a b : Spectrum) : Spectrum :=
  ⟨a.r * b.r, a.g * b.g, a.b * b.b⟩

/-- Multiplication of every channel by a scalar (operator `*=` with a float). -/
def Spectrum.scale (a : Spectrum) (k : ℚ) : Spectrum :=
  ⟨a.r * k, a.g * k, a.b * k⟩

/-- Division of every channel by a scalar (operator `/=` with a float). -/
def Spectrum.sdiv (a : Spectrum) (k : ℚ) : Spectrum :=
  ⟨a.r / k, a.g / k, a.b / k⟩

/-- Minimum channel value (foundation min_value on a Spectrum). -/
def min_value (a : Spectrum) : ℚ :=
  min a.r (min a.g a.b)

/-- All channels nonnegative. -/
def Spectrum.Nonneg (a : Spectrum) : Prop :=
  0 ≤ a.r ∧ 0 ≤ a.g ∧ 0 ≤ a.b

/-- The value of Pi at 32-bit float precision, as used by the constructor to
compute the disk point probability (foundation Pi of float, the nearest
binary32 to the mathematical constant). -/
def floatPi : ℚ := 13176795 / 4194304

/-- Sample record (renderer/kernel/rendering/sample.h): an image-plane
position and five values, of which index 0..2 are linear RGB, index 3 is the
alpha channel and index 4 is the distance to the camera.  Fields `r g b alpha
distance` model `m_values` entries 0 to 4 in order. -/
structure Sample where
  position : Vec2
  r : ℚ
  g : ℚ
  b : ℚ
  alpha : ℚ
  distance : ℚ
deriving DecidableEq

/-- Mutable state of a PathVisitor: the shared output sample list
(`m_samples`, append-only) together with the visitor's own counter
(`m_sample_count`). -/
structure PathVisitorState where
  samples : List Sample
  sample_count : ℕ
deriving DecidableEq

/-- PathVisitor::emit_sample: converts the radiance to linear RGB (identity
in RGB mode), assembles the Sample with alpha fixed at 1 and the given
distance, appends it and increments the visitor's counter. -/
def emit_sample (position_ndc : Vec2) (distance : ℚ) (radiance : Spectrum)
    (st : PathVisitorState) : PathVisitorState :=
  { samples := st.samples ++
      [{ position := position_ndc
         r := radiance.r
         g := radiance.g
         b := radiance.b
         alpha := 1
         distance := distance }]
    sample_count := st.sample_count + 1 }

/-- The debug assertion at the top of emit_sample: the minimum channel value
of the radiance is nonnegative. -/
def emit_sample_assertion (radiance : Spectrum) : Prop :=
  0 ≤ min_value radiance

/-- LightSample (renderer/kernel/lighting/lightsampler.h): the result of
drawing one emitter.  `has_triangle` models the `m_triangle` pointer being
non-null (emitting surface) versus null (non-physical light). -/
structure LightSample where
  point : Vec3
  shading_normal : Vec3
  geometric_normal : Vec3
  probability : ℚ
  has_triangle : Bool
deriving DecidableEq

/-- A scattering capability at a vertex.  `evaluate` models
BSDF::evaluate in adjoint mode with the cosine factor folded in, applied to
(geometric normal, shading basis, outgoing, incoming); it returns the value
and the probability.  The constant arguments of the call site (adjoint =
true, cosine multiplication = true, the full scattering-mode mask and the
per-vertex input data) are folded into the function. -/
structure BSDF where
  evaluate : Vec3 → Basis3 → Vec3 → Vec3 → Spectrum × ℚ

/-- PathVertex (renderer/kernel/lighting/pathvertex.h): the transient
description of one scattering event handed to the visitor.  `bsdf = none`
models a null `m_bsdf` pointer. -/
structure PathVertex where
  point : Vec3
  shading_normal : Vec3
  geometric_normal : Vec3
  shading_basis : Basis3
  outgoing : Vec3
  throughput : Spectrum
  path_length : ℕ
  time : ℚ
  bsdf : Option BSDF

/-- Scattering modes (renderer/kernel/lighting/scatteringmode.h). -/
inductive ScatteringMode where
  | absorption
  | diffuse
  | glossy
  | specular
deriving DecidableEq

/-- Modelled from the spec: ScatteringMode::has_glossy_or_specular
(scatteringmode.h is not among the sources) holds exactly of the glossy and
specular modes. -/
def has_glossy_or_specular (m : ScatteringMode) : Bool :=
  match m with
  | .glossy => true
  | .specular => true
  | _ => false

/-- Modelled from the spec: the SamplingContext (foundation, not among the
sources) is a positioned cursor into a deterministic random stream; drawing
advances the cursor monotonically. -/
structure SamplingContext where
  stream : ℕ → ℚ
  cursor : ℕ

/-- Modelled from the spec: hierarchical dimension splitting re-keys the
stream deterministically; the model keeps the same stream and cursor, which
preserves the only property the claims rely on, determinism of the draws. -/
def SamplingContext.split (c : SamplingContext) (dims count : ℕ) :
    SamplingContext :=
  c

/-- Draw one random value (next2 of a scalar). -/
def SamplingContext.next1 (c : SamplingContext) : ℚ × SamplingContext :=
  (c.stream c.cursor, ⟨c.stream, c.cursor + 1⟩)

/-- Draw two random values (next2 of a 2-vector). -/
def SamplingContext.next_pair (c : SamplingContext) :
    Vec2 × SamplingContext :=
  (⟨c.stream c.cursor, c.stream (c.cursor + 1)⟩, ⟨c.stream, c.cursor + 2⟩)

/-- Draw four random values (next2 of a 4-vector). -/
def SamplingContext.next4 (c : SamplingContext) :
    (ℚ × ℚ × ℚ × ℚ) × SamplingContext :=
  ((c.stream c.cursor, c.stream (c.cursor + 1), c.stream (c.cursor + 2),
    c.stream (c.cursor + 3)),
   ⟨c.stream, c.cursor + 4⟩)

/-- Modelled from the spec: the per-instance RNG is counter-based, keyed by
the sequence index; a SamplingContext built on it is positioned at that
index's sub-stream. -/
def RNG : Type := ℕ → ℕ → ℚ

/-- Modelled from the spec: constructing a SamplingContext from the
generator's RNG positioned at a sequence index. -/
def mkSamplingContext (rng : RNG) (sequence_index : ℕ) : SamplingContext :=
  ⟨rng sequence_index, 0⟩

/-- ShadingRay::Time::create_with_normalized_time: linear interpolation of a
normalized time between the shutter open and close times. -/
def create_with_normalized_time (t lo hi : ℚ) : ℚ :=
  lo + t * (hi - lo)

/-- A shading ray: origin, direction and time (the visibility flags and depth
of the call sites are the constants LightRay and 0). -/
structure ShadingRay where
  origin : Vec3
  dir : Vec3
  time : ℚ

/-- One callback performed by the path-tracer engine on the visitor: either a
surface vertex or an environment escape. -/
inductive PathEvent where
  | vertex (v : PathVertex)
  | environment (v : PathVertex)

/-- Result of tracing one particle with the engine: the sequence of visitor
callbacks, the realized path length and the advanced sampling context. -/
structure TraceResult where
  events : List PathEvent
  path_length : ℕ
  sctx : SamplingContext

/-- The deterministic collaborators of the generator, per the outside
interface contracts of the specification.  `connect_vertex` is the camera
(image position, camera outgoing vector and importance, or none),
`trace_between` the visibility tracer (origin, target, time, ray depth to
transmittance), `norm3` the Euclidean norm, `mk_basis` the Basis3d
constructor, `sample_disk_uniform` the uniform disk mapping, `sample_light`
the light sampler, `edf_sample` the EDF of an emitting triangle,
`light_emit_sample` a non-physical light's sample_, `env_edf` the optional
environment EDF, and `trace` — modelled from the spec — the generic
path-tracer engine (pathtracer.h is not among the sources), which performs a
deterministic sequence of visitor callbacks and returns the realized path
length. -/
structure Env where
  connect_vertex : ℚ → Vec3 → Option (Vec2 × Vec3 × ℚ)
  trace_between : Vec3 → Vec3 → ℚ → ℕ → ℚ
  norm3 : Vec3 → ℚ
  mk_basis : Vec3 → Basis3
  sample_disk_uniform : Vec2 → Vec2
  has_lights_or_emitting_triangles : Bool
  sample_light : ℚ → ℚ × ℚ × ℚ → LightSample
  edf_sample : LightSample → Vec2 → Vec3 × Spectrum × ℚ
  light_emit_sample : Vec2 → Vec3 × Vec3 × Spectrum × ℚ
  env_edf : Option (Vec2 → Vec3 × Spectrum × ℚ)
  trace : SamplingContext → ShadingRay → TraceResult

/-- ParamArray restricted to the options the Parameters constructor reads;
`none` models an absent option. -/
structure ParamArray where
  enable_ibl : Option Bool
  enable_caustics : Option Bool
  transparency_threshold : Option ℚ
  max_iterations : Option ℕ
  report_self_intersections : Option Bool
  max_path_length : Option ℕ
  rr_min_path_length : Option ℕ

/-- A ParamArray with every option absent. -/
def emptyParamArray : ParamArray :=
  ⟨none, none, none, none, none, none, none⟩

/-- The maximum value of a 64-bit size_t, i.e. the bit pattern `~0` used as
the unbounded sentinel. -/
def unboundedSentinel : ℕ := 2 ^ 64 - 1

/-- Parameters::nz: maps 0 to the unbounded sentinel `~0` and leaves every
other value unchanged. -/
def nz (x : ℕ) : ℕ :=
  if x = 0 then unboundedSentinel else x

/-- LightTracingSampleGenerator::Parameters (the sampling mode, an
enumeration read only by a collaborator, is omitted). -/
structure Parameters where
  enable_ibl : Bool
  enable_caustics : Bool
  transparency_threshold : ℚ
  max_iterations : ℕ
  report_self_intersections : Bool
  max_path_length : ℕ
  rr_min_path_length : ℕ
deriving DecidableEq

/-- The Parameters constructor: reads each option with its default
(get_optional) and applies nz to the two path-length options. -/
def mkParameters (params : ParamArray) : Parameters :=
  { enable_ibl := params.enable_ibl.getD true
    enable_caustics := params.enable_caustics.getD true
    transparency_threshold := params.transparency_threshold.getD (1 / 1000)
    max_iterations := params.max_iterations.getD 1000
    report_self_intersections := params.report_self_intersections.getD false
    max_path_length := nz (params.max_path_length.getD 0)
    rr_min_path_length := nz (params.rr_min_path_length.getD 3) }

/-- PathVisitor::accept_scattering: when caustics are disabled, reject any
bounce whose next mode is glossy or specular; accept everything else.  The
previous mode is received but never read. -/
def accept_scattering (params : Parameters)
    (prev_mode next_mode : ScatteringMode) : Bool :=
  if !params.enable_caustics && has_glossy_or_specular next_mode then
    false
  else
    true

/-- PathVisitor::visit_area_light_vertex: connect the light vertex to the
camera; reject when the connection fails, when the camera-ward direction is
on the back side of the emitting surface, or when the transmittance of the
camera-ward segment (shadow ray originating on the camera side) is zero;
otherwise emit one Sample with radiance scaled by
transmittance × (cos alpha / distance) × importance. -/
def visit_area_light_vertex (env : Env) (light_sample : LightSample)
    (light_particle_flux : Spectrum) (time : ℚ)
    (st : PathVisitorState) : PathVisitorState :=
  match env.connect_vertex time light_sample.point with
  | none => st
  | some (sample_position, camera_outgoing, importance) =>
    let cos_alpha :=
      Vec3.dot (Vec3.neg camera_outgoing) light_sample.shading_normal
    if cos_alpha ≤ 0 then st
    else
      let transmission :=
        env.trace_between
          (Vec3.sub light_sample.point camera_outgoing)
          light_sample.point time 0
      if transmission = 0 then st
      else
        let distance := env.norm3 camera_outgoing
        let radiance :=
          light_particle_flux.scale
            (transmission * (cos_alpha / distance) * importance)
        emit_sample sample_position distance radiance st

/-- PathVisitor::visit_non_physical_light_vertex: connect the light vertex
to the camera; reject when the connection fails or the transmittance is
zero; otherwise emit one Sample with radiance scaled by
transmittance × importance. -/
def visit_non_physical_light_vertex (env : Env) (light_vertex : Vec3)
    (light_particle_flux : Spectrum) (time : ℚ)
    (st : PathVisitorState) : PathVisitorState :=
  match env.connect_vertex time light_vertex with
  | none => st
  | some (sample_position, camera_outgoing, importance) =>
    let transmission :=
      env.trace_between
        (Vec3.sub light_vertex camera_outgoing)
        light_vertex time 0
    if transmission = 0 then st
    else
      let radiance :=
        light_particle_flux.scale (transmission * importance)
      emit_sample sample_position (env.norm3 camera_outgoing) radiance st

/-- PathVisitor::visit_vertex: skip vertices without a BSDF; connect to the
camera; reject back-facing vertices (stored-direction sign convention), zero
transmittance (ray depth hint = path length) and zero adjoint BSDF
probability; otherwise emit one Sample with radiance
initial flux × throughput × BSDF value × transmittance × importance. -/
def visit_vertex (env : Env) (initial_flux : Spectrum) (vertex : PathVertex)
    (st : PathVisitorState) : PathVisitorState :=
  match vertex.bsdf with
  | none => st
  | some bsdf =>
    match env.connect_vertex vertex.time vertex.point with
    | none => st
    | some (sample_position, camera_outgoing, importance) =>
      if 0 ≤ Vec3.dot camera_outgoing vertex.shading_normal then st
      else
        let transmission :=
          env.trace_between
            (Vec3.sub vertex.point camera_outgoing)
            vertex.point vertex.time vertex.path_length
        if transmission = 0 then st
        else
          let distance := env.norm3 camera_outgoing
          let dir := Vec3.sdiv camera_outgoing distance
          let geometric_normal :=
            flip_to_same_hemisphere vertex.geometric_normal
              vertex.shading_normal
          let res :=
            bsdf.evaluate geometric_normal vertex.shading_basis
              vertex.outgoing (Vec3.neg dir)
          if res.2 = 0 then st
          else
            let radiance :=
              ((initial_flux.mul vertex.throughput).mul res.1).scale
                (transmission * importance)
            emit_sample sample_position distance radiance st

/-- PathVisitor::visit_environment: the particle escapes, nothing is
emitted. -/
def visit_environment (st : PathVisitorState) (v : PathVertex) :
    PathVisitorState :=
  st

/-- Dispatch of one engine callback to the visitor. -/
def visit_event (env : Env) (initial_flux : Spectrum)
    (st : PathVisitorState) (ev : PathEvent) : PathVisitorState :=
  match ev with
  | .vertex v => visit_vertex env initial_flux v st
  | .environment v => visit_environment st v

/-- Scene render data read by the constructor: bounding-sphere center and
radius and the safe diameter. -/
structure SceneRenderData where
  center : Vec3
  radius : ℚ
  safe_diameter : ℚ
deriving DecidableEq

/-- Camera shutter interval read by the constructor. -/
structure CameraShutter where
  open_time : ℚ
  close_time : ℚ
deriving DecidableEq

/-- Per-instance mutable and configured state of a
LightTracingSampleGenerator instance. -/
structure Generator where
  params : Parameters
  scene_center : Vec3
  scene_radius : ℚ
  safe_scene_diameter : ℚ
  disk_point_prob : ℚ
  shutter_open_time : ℚ
  shutter_close_time : ℚ
  light_sample_count : ℕ
  path_count : ℕ
  path_lengths : List ℕ
deriving DecidableEq

/-- The LightTracingSampleGenerator constructor: caches the scene bounding
data, computes the disk point probability 1 / (π r²) at float precision,
reads the shutter interval and zeroes the counters. -/
def mkGenerator (params : Parameters) (scene : SceneRenderData)
    (camera : CameraShutter) : Generator :=
  { params := params
    scene_center := scene.center
    scene_radius := scene.radius
    safe_scene_diameter := scene.safe_diameter
    disk_point_prob := 1 / (floatPi * (scene.radius * scene.radius))
    shutter_open_time := camera.open_time
    shutter_close_time := camera.close_time
    light_sample_count := 0
    path_count := 0
    path_lengths := [] }

/-- Result of one particle-generating subroutine: the returned sample count,
the output sample list, the updated generator statistics and the advanced
sampling context. -/
structure ParticleResult where
  count : ℕ
  samples : List Sample
  gen : Generator
  sctx : SamplingContext

/-- LightTracingSampleGenerator::generate_emitting_triangle_sample: flips the
geometric normal into the shading hemisphere, samples the EDF (two random
dimensions), computes the initial particle flux, draws the ray time (one
random dimension), handles the zero-bounce light vertex separately via
visit_area_light_vertex, traces the light path with the engine and returns
the visitor's sample count. -/
def generate_emitting_triangle_sample (g : Generator) (env : Env)
    (sampling_context : SamplingContext) (light_sample : LightSample)
    (samples : List Sample) : ParticleResult :=
  let ls :=
    { light_sample with
        geometric_normal :=
          flip_to_same_hemisphere light_sample.geometric_normal
            light_sample.shading_normal }
  let sc1 := sampling_context.split 2 1
  let d1 := sc1.next_pair
  let edf := env.edf_sample ls d1.1
  let emission_direction := edf.1
  let edf_value := edf.2.1
  let edf_prob := edf.2.2
  let initial_flux :=
    edf_value.scale
      (Vec3.dot emission_direction ls.shading_normal /
        (ls.probability * edf_prob))
  let sc2 := (d1.2).split 1 1
  let dt := sc2.next1
  let time :=
    create_with_normalized_time dt.1 g.shutter_open_time g.shutter_close_time
  let light_ray : ShadingRay := ⟨ls.point, emission_direction, time⟩
  let light_particle_flux := edf_value.sdiv ls.probability
  let st0 : PathVisitorState := ⟨samples, 0⟩
  let st1 := visit_area_light_vertex env ls light_particle_flux time st0
  let tr := env.trace dt.2 light_ray
  let stF := tr.events.foldl (visit_event env initial_flux) st1
  { count := stF.sample_count
    samples := stF.samples
    gen :=
      { g with
          path_count := g.path_count + 1
          path_lengths := g.path_lengths ++ [tr.path_length] }
    sctx := tr.sctx }

/-- LightTracingSampleGenerator::generate_non_physical_light_sample: samples
the light (two random dimensions), computes the initial particle flux, draws
the ray time (one random dimension), handles the zero-bounce light vertex via
visit_non_physical_light_vertex, traces the light path and returns the
visitor's sample count. -/
def generate_non_physical_light_sample (g : Generator) (env : Env)
    (sampling_context : SamplingContext) (light_sample : LightSample)
    (samples : List Sample) : ParticleResult :=
  let sc1 := sampling_context.split 2 1
  let d1 := sc1.next_pair
  let ls := env.light_emit_sample d1.1
  let emission_position := ls.1
  let emission_direction := ls.2.1
  let light_value := ls.2.2.1
  let light_prob := ls.2.2.2
  let initial_flux :=
    light_value.sdiv (light_sample.probability * light_prob)
  let sc2 := (d1.2).split 1 1
  let dt := sc2.next1
  let time :=
    create_with_normalized_time dt.1 g.shutter_open_time g.shutter_close_time
  let light_ray : ShadingRay := ⟨emission_position, emission_direction, time⟩
  let light_particle_flux := light_value.sdiv light_sample.probability
  let st0 : PathVisitorState := ⟨samples, 0⟩
  let st1 :=
    visit_non_physical_light_vertex env emission_position
      light_particle_flux time st0
  let tr := env.trace dt.2 light_ray
  let stF := tr.events.foldl (visit_event env initial_flux) st1
  { count := stF.sample_count
    samples := stF.samples
    gen :=
      { g with
          path_count := g.path_count + 1
          path_lengths := g.path_lengths ++ [tr.path_length] }
    sctx := tr.sctx }

/-- LightTracingSampleGenerator::generate_light_sample: draws four random
dimensions (one for time, three for the light selection), samples the light
sources and dispatches on the kind of the drawn emitter. -/
def generate_light_sample (g : Generator) (env : Env)
    (sampling_context : SamplingContext) (samples : List Sample) :
    ParticleResult :=
  let sc1 := sampling_context.split 4 1
  let d := sc1.next4
  let s0 := d.1.1
  let s123 := d.1.2
  let time :=
    create_with_normalized_time s0 g.shutter_open_time g.shutter_close_time
  let light_sample := env.sample_light time s123
  if light_sample.has_triangle then
    generate_emitting_triangle_sample g env d.2 light_sample samples
  else
    generate_non_physical_light_sample g env d.2 light_sample samples

/-- The quantities computed by generate_environment_sample before the path
is traced. -/
structure EnvParticleSetup where
  outgoing : Vec3
  env_edf_value : Spectrum
  env_edf_prob : ℚ
  p : Vec2
  ray_origin : Vec3
  initial_flux : Spectrum
  time : ℚ
  sctx : SamplingContext

/-- The first half of
LightTracingSampleGenerator::generate_environment_sample: samples the
environment EDF (two random dimensions), uniformly samples the tangent disk
scaled by the scene radius (two random dimensions), computes the ray origin
from the basis built on the negated sampled direction, computes the initial
flux and draws the ray time (one random dimension). -/
def environment_sample_setup (g : Generator) (env : Env)
    (env_edf : Vec2 → Vec3 × Spectrum × ℚ)
    (sampling_context : SamplingContext) : EnvParticleSetup :=
  let sc1 := sampling_context.split 2 1
  let d1 := sc1.next_pair
  let es := env_edf d1.1
  let outgoing := es.1
  let env_edf_value := es.2.1
  let env_edf_prob := es.2.2
  let sc2 := (d1.2).split 2 1
  let d2 := sc2.next_pair
  let p := Vec2.smul g.scene_radius (env.sample_disk_uniform d2.1)
  let basis := env.mk_basis (Vec3.neg outgoing)
  let ray_origin :=
    Vec3.add
      (Vec3.add
        (Vec3.sub g.scene_center
          (Vec3.smul g.safe_scene_diameter basis.normal))
        (Vec3.smul p.x basis.tangent_u))
      (Vec3.smul p.y basis.tangent_v)
  let initial_flux :=
    env_edf_value.sdiv (g.disk_point_prob * env_edf_prob)
  let sc3 := (d2.2).split 1 1
  let dt := sc3.next1
  let time :=
    create_with_normalized_time dt.1 g.shutter_open_time g.shutter_close_time
  { outgoing := outgoing
    env_edf_value := env_edf_value
    env_edf_prob := env_edf_prob
    p := p
    ray_origin := ray_origin
    initial_flux := initial_flux
    time := time
    sctx := dt.2 }

/-- LightTracingSampleGenerator::generate_environment_sample: performs the
setup above, traces the light path (there is no zero-bounce vertex) and
returns the visitor's sample count. -/
def generate_environment_sample (g : Generator) (env : Env)
    (env_edf : Vec2 → Vec3 × Spectrum × ℚ)
    (sampling_context : SamplingContext) (samples : List Sample) :
    ParticleResult :=
  let s := environment_sample_setup g env env_edf sampling_context
  let light_ray : ShadingRay := ⟨s.ray_origin, Vec3.neg s.outgoing, s.time⟩
  let st0 : PathVisitorState := ⟨samples, 0⟩
  let tr := env.trace s.sctx light_ray
  let stF := tr.events.foldl (visit_event env s.initial_flux) st0
  { count := stF.sample_count
    samples := stF.samples
    gen :=
      { g with
          path_count := g.path_count + 1
          path_lengths := g.path_lengths ++ [tr.path_length] }
    sctx := tr.sctx }

/-- Result of the per-sequence generate_samples: the returned stored sample
count, the output sample list and the updated generator. -/
structure SeqResult where
  count : ℕ
  samples : List Sample
  gen : Generator

/-- LightTracingSampleGenerator::generate_samples(sequence_index, samples):
creates a sampling context positioned at the sequence index, draws a light
particle when the scene has lights or emitting triangles, draws an
environment particle when image-based lighting is enabled and the scene's
environment has an environment EDF, increments the private light-sample
counter by one and returns the total stored sample count. -/
def generate_samples_seq (g : Generator) (env : Env) (rng : RNG)
    (sequence_index : ℕ) (samples : List Sample) : SeqResult :=
  let sc0 := mkSamplingContext rng sequence_index
  let r1 :=
    if env.has_lights_or_emitting_triangles then
      generate_light_sample g env sc0 samples
    else
      ⟨0, samples, g, sc0⟩
  let r2 :=
    if g.params.enable_ibl then
      match env.env_edf with
      | some env_edf =>
        generate_environment_sample r1.gen env env_edf r1.sctx r1.samples
      | none => ⟨0, r1.samples, r1.gen, r1.sctx⟩
    else ⟨0, r1.samples, r1.gen, r1.sctx⟩
  { count := r1.count + r2.count
    samples := r2.samples
    gen :=
      { r2.gen with light_sample_count := r2.gen.light_sample_count + 1 } }

/-- Modelled from the spec: SampleGeneratorBase::generate_samples
(samplegeneratorbase.cpp is not among the sources) invokes the per-sequence
entry point once per unit of work, in order, with the abort switch polled
only between units; `sequence_indices` is the list of units actually
performed in the batch. -/
def run_units (env : Env) (rng : RNG) :
    Generator → List Sample → List ℕ → Generator × List Sample
  | g, samples, [] => (g, samples)
  | g, samples, sequence_index :: rest =>
    let r := generate_samples_seq g env rng sequence_index samples
    run_units env rng r.gen r.samples rest

/-- LightTracingSampleGenerator::generate_samples(sample_count, buffer,
abort_switch): zeroes the private light-sample counter, runs the base-class
batch loop, then reports the counter to the accumulation buffer (modelled as
a natural-number counter receiving increment_sample_count). -/
def generate_samples_batch (g : Generator) (env : Env) (rng : RNG)
    (sequence_indices : List ℕ) (samples : List Sample) (buffer : ℕ) :
    Generator × List Sample × ℕ :=
  let g0 := { g with light_sample_count := 0 }
  let r := run_units env rng g0 samples sequence_indices
  (r.1, r.2, buffer + r.1.light_sample_count)

/-- The radiometric collaborator outputs are nonnegative: every
transmittance, every importance returned by a successful camera connection
and every vector norm. -/
def EnvNonneg (env : Env) : Prop :=
  (∀ a b t d, 0 ≤ env.trace_between a b t d) ∧
  (∀ t p r, env.connect_vertex t p = some r → 0 ≤ r.2.2) ∧
  (∀ v, 0 ≤ env.norm3 v)

/-- Every value the scattering capability returns is channelwise
nonnegative. -/
def BSDFNonneg (bsdf : BSDF) : Prop :=
  ∀ gn basis o i, Spectrum.Nonneg (bsdf.evaluate gn basis o i).1

/-- The record invariant of the claim: alpha is exactly 1 and every RGB
channel is nonnegative. -/
def GoodSample (s : Sample) : Prop :=
  s.alpha = 1 ∧ 0 ≤ s.r ∧ 0 ≤ s.g ∧ 0 ≤ s.b

/-- A concrete light sample used to instantiate proved theorems. -/
def cLightSample : LightSample :=
  { point := ⟨0, 0, 0⟩
    shading_normal := ⟨0, 0, 1⟩
    geometric_normal := ⟨0, 0, 1⟩
    probability := 1
    has_triangle := true }

/-- A concrete collaborator environment used to instantiate proved
theorems: the camera always connects with importance 1 and outgoing
direction pointing down the z axis, transmittance is 1 everywhere,
norms are 1, the scene has lights and no environment EDF, and the engine
performs no callback. -/
def cEnv : Env :=
  { connect_vertex := fun _ _ => some (⟨1/2, 1/2⟩, ⟨0, 0, -1⟩, 1)
    trace_between := fun _ _ _ _ => 1
    norm3 := fun _ => 1
    mk_basis := fun v => ⟨v, ⟨1, 0, 0⟩, ⟨0, 1, 0⟩⟩
    sample_disk_uniform := fun u => u
    has_lights_or_emitting_triangles := true
    sample_light := fun _ _ => cLightSample
    edf_sample := fun _ _ => (⟨0, 0, 1⟩, ⟨1, 1, 1⟩, 1)
    light_emit_sample := fun _ => (⟨0, 0, 0⟩, ⟨0, 0, 1⟩, ⟨1, 1, 1⟩, 1)
    env_edf := none
    trace := fun sc _ => ⟨[], 0, sc⟩ }

/-- A concrete RNG used to instantiate proved theorems. -/
def cRng : RNG := fun _ _ => 1/2

/-- A concrete generator used to instantiate proved theorems. -/
def cGen : Generator :=
  mkGenerator (mkParameters emptyParamArray)
    ⟨⟨0, 0, 0⟩, 1, 4⟩ ⟨0, 1⟩

/-- The sample emitted by the concrete area-light connection below. -/
def cSample : Sample :=
  { position := ⟨1/2, 1/2⟩
    r := 1
    g := 1
    b := 1
    alpha := 1
    distance := 1 }

/-- A concrete scattering capability with constant unit value and unit
probability. -/
def cBSDF : BSDF :=
  ⟨fun _ _ _ _ => (⟨1, 1, 1⟩, 1)⟩

/-- A concrete path vertex carrying the concrete scattering capability. -/
def cVertex : PathVertex :=
  { point := ⟨0, 0, 0⟩
    shading_normal := ⟨0, 0, 1⟩
    geometric_normal := ⟨0, 0, 1⟩
    shading_basis := ⟨⟨0, 0, 1⟩, ⟨1, 0, 0⟩, ⟨0, 1, 0⟩⟩
    outgoing := ⟨0, 0, 1⟩
    throughput := ⟨1, 1, 1⟩
    path_length := 1
    time := 0
    bsdf := some cBSDF }

/-- A concrete ParamArray supplying zero and non-zero path-length options. -/
def cParamArray : ParamArray :=
  { enable_ibl := some false
    enable_caustics := some false
    transparency_threshold := some (1 / 2)
    max_iterations := some 10
    report_self_intersections := some true
    max_path_length := some 0
    rr_min_path_length := some 5 }

/-- Appending relation between visitor states: the later state extends the
earlier sample list and its counter grew by exactly the number of appended
records. -/
def Appends (st st' : PathVisitorState) : Prop :=
  ∃ d, st'.samples = st.samples ++ d ∧
    st'.sample_count = st.sample_count + d.length

theorem appends_self (st : PathVisitorState) : Appends st st :=
  ⟨[], by simp, by simp⟩

theorem appends_trans {a b c : PathVisitorState}
    (h1 : Appends a b) (h2 : Appends b c) : Appends a c := by
  obtain ⟨d1, hs1, hc1⟩ := h1
  obtain ⟨d2, hs2, hc2⟩ := h2
  exact ⟨d1 ++ d2, by simp [hs2, hs1], by simp [hc2, hc1, Nat.add_assoc]⟩

theorem emit_sample_appends (pos : Vec2) (dist : ℚ) (rad : Spectrum)
    (st : PathVisitorState) : Appends st (emit_sample pos dist rad st) :=
  ⟨[⟨pos, rad.r, rad.g, rad.b, 1, dist⟩], rfl, rfl⟩

theorem visit_area_light_vertex_appends (env : Env) (ls : LightSample)
    (fl : Spectrum) (t : ℚ) (st : PathVisitorState) :
    Appends st (visit_area_light_vertex env ls fl t st) := by
  unfold visit_area_light_vertex
  cases h : env.connect_vertex t ls.point with
  | none => exact appends_self st
  | some r =>
    obtain ⟨pos, out, imp⟩ := r
    dsimp only
    split_ifs with h1 h2
    · exact appends_self st
    · exact appends_self st
    · exact emit_sample_appends _ _ _ _

theorem visit_non_physical_light_vertex_appends (env : Env) (lv : Vec3)
    (fl : Spectrum) (t : ℚ) (st : PathVisitorState) :
    Appends st (visit_non_physical_light_vertex env lv fl t st) := by
  unfold visit_non_physical_light_vertex
  cases h : env.connect_vertex t lv with
  | none => exact appends_self st
  | some r =>
    obtain ⟨pos, out, imp⟩ := r
    dsimp only
    split_ifs with h1
    · exact appends_self st
    · exact emit_sample_appends _ _ _ _

theorem visit_vertex_appends (env : Env) (fl : Spectrum) (v : PathVertex)
    (st : PathVisitorState) : Appends st (visit_vertex env fl v st) := by
  unfold visit_vertex
  cases hb : v.bsdf with
  | none => exact appends_self st
  | some bsdf =>
    dsimp only
    cases h : env.connect_vertex v.time v.point with
    | none => exact appends_self st
    | some r =>
      obtain ⟨pos, out, imp⟩ := r
      dsimp only
      split_ifs with h1 h2 h3
      · exact appends_self st
      · exact appends_self st
      · exact appends_self st
      · exact emit_sample_appends _ _ _ _

theorem visit_event_appends (env : Env) (fl : Spectrum)
    (st : PathVisitorState) (ev : PathEvent) :
    Appends st (visit_event env fl st ev) := by
  cases ev with
  | vertex v => exact visit_vertex_appends env fl v st
  | environment v => exact appends_self st

theorem foldl_visit_event_appends (env : Env) (fl : Spectrum)
    (events : List PathEvent) :
    ∀ st : PathVisitorState,
      Appends st (events.foldl (visit_event env fl) st) := by
  induction events with
  | nil => intro st; exact appends_self st
  | cons ev rest ih =>
    intro st
    exact appends_trans (visit_event_appends env fl st ev)
      (ih (visit_event env fl st ev))

theorem particle_from_states {samples : List Sample}
    {stF : PathVisitorState} (h : Appends ⟨samples, 0⟩ stF) :
    ∃ d, stF.samples = samples ++ d ∧ stF.sample_count = d.length := by
  obtain ⟨d, hs, hc⟩ := h
  exact ⟨d, hs, by simpa using hc⟩

theorem generate_emitting_triangle_sample_count (g : Generator) (env : Env)
    (sc : SamplingContext) (ls : LightSample) (samples : List Sample) :
    ∃ d,
      (generate_emitting_triangle_sample g env sc ls samples).samples =
        samples ++ d ∧
      (generate_emitting_triangle_sample g env sc ls samples).count =
        d.length :=
  particle_from_states
    (appends_trans (visit_area_light_vertex_appends _ _ _ _ _)
      (foldl_visit_event_appends _ _ _ _))

theorem generate_non_physical_light_sample_count (g : Generator) (env : Env)
    (sc : SamplingContext) (ls : LightSample) (samples : List Sample) :
    ∃ d,
      (generate_non_physical_light_sample g env sc ls samples).samples =
        samples ++ d ∧
      (generate_non_physical_light_sample g env sc ls samples).count =
        d.length :=
  particle_from_states
    (appends_trans (visit_non_physical_light_vertex_appends _ _ _ _ _)
      (foldl_visit_event_appends _ _ _ _))

theorem generate_environment_sample_count (g : Generator) (env : Env)
    (env_edf : Vec2 → Vec3 × Spectrum × ℚ) (sc : SamplingContext)
    (samples : List Sample) :
    ∃ d,
      (generate_environment_sample g env env_edf sc samples).samples =
        samples ++ d ∧
      (generate_environment_sample g env env_edf sc samples).count =
        d.length :=
  particle_from_states (foldl_visit_event_appends _ _ _ _)

theorem generate_light_sample_count (g : Generator) (env : Env)
    (sc : SamplingContext) (samples : List Sample) :
    ∃ d,
      (generate_light_sample g env sc samples).samples = samples ++ d ∧
      (generate_light_sample g env sc samples).count = d.length := by
  unfold generate_light_sample
  dsimp only
  split
  · exact generate_emitting_triangle_sample_count _ _ _ _ _
  · exact generate_non_physical_light_sample_count _ _ _ _ _

theorem seq_light_part_count (b : Bool) (g : Generator) (env : Env)
    (sc : SamplingContext) (samples : List Sample) :
    ∃ d,
      (if b then generate_light_sample g env sc samples
       else (⟨0, samples, g, sc⟩ : ParticleResult)).samples =
        samples ++ d ∧
      (if b then generate_light_sample g env sc samples
       else (⟨0, samples, g, sc⟩ : ParticleResult)).count = d.length := by
  cases b with
  | false => exact ⟨[], by simp, by simp⟩
  | true => simpa using generate_light_sample_count g env sc samples

theorem seq_env_part_count (b : Bool) (env : Env) (r1 : ParticleResult) :
    ∃ d,
      (if b then
        match env.env_edf with
        | some env_edf =>
          generate_environment_sample r1.gen env env_edf r1.sctx r1.samples
        | none => (⟨0, r1.samples, r1.gen, r1.sctx⟩ : ParticleResult)
       else (⟨0, r1.samples, r1.gen, r1.sctx⟩ : ParticleResult)).samples =
        r1.samples ++ d ∧
      (if b then
        match env.env_edf with
        | some env_edf =>
          generate_environment_sample r1.gen env env_edf r1.sctx r1.samples
        | none => (⟨0, r1.samples, r1.gen, r1.sctx⟩ : ParticleResult)
       else (⟨0, r1.samples, r1.gen, r1.sctx⟩ : ParticleResult)).count =
        d.length := by
  cases b with
  | false => exact ⟨[], by simp, by simp⟩
  | true =>
    cases he : env.env_edf with
    | none => exact ⟨[], by simp, by simp⟩
    | some env_edf =>
      simpa using
        generate_environment_sample_count r1.gen env env_edf r1.sctx
          r1.samples

theorem generate_light_sample_gen_lsc (g : Generator) (env : Env)
    (sc : SamplingContext) (samples : List Sample) :
    (generate_light_sample g env sc samples).gen.light_sample_count =
      g.light_sample_count := by
  unfold generate_light_sample
  dsimp only
  split
  · rfl
  · rfl

theorem seq_light_part_gen (b : Bool) (g : Generator) (env : Env)
    (sc : SamplingContext) (samples : List Sample) :
    (if b then generate_light_sample g env sc samples
     else (⟨0, samples, g, sc⟩ : ParticleResult)).gen.light_sample_count =
      g.light_sample_count := by
  cases b with
  | false => rfl
  | true => simpa using generate_light_sample_gen_lsc g env sc samples

theorem seq_env_part_gen (b : Bool) (env : Env) (r1 : ParticleResult) :
    (if b then
      match env.env_edf with
      | some env_edf =>
        generate_environment_sample r1.gen env env_edf r1.sctx r1.samples
      | none => (⟨0, r1.samples, r1.gen, r1.sctx⟩ : ParticleResult)
     else
       (⟨0, r1.samples, r1.gen, r1.sctx⟩ :
         ParticleResult)).gen.light_sample_count =
      r1.gen.light_sample_count := by
  cases b with
  | false => rfl
  | true =>
    cases he : env.env_edf with
    | none => rfl
    | some env_edf => rfl

theorem generate_light_sample_gen_pc (g : Generator) (env : Env)
    (sc : SamplingContext) (samples : List Sample) :
    (generate_light_sample g env sc samples).gen.path_count =
      g.path_count + 1 := by
  unfold generate_light_sample
  dsimp only
  split
  · rfl
  · rfl

theorem seq_light_part_pc (b : Bool) (g : Generator) (env : Env)
    (sc : SamplingContext) (samples : List Sample) :
    (if b then generate_light_sample g env sc samples
     else (⟨0, samples, g, sc⟩ : ParticleResult)).gen.path_count =
      g.path_count + (if b then 1 else 0) := by
  cases b with
  | false => rfl
  | true => simpa using generate_light_sample_gen_pc g env sc samples

theorem seq_env_part_pc (b : Bool) (env : Env) (r1 : ParticleResult) :
    (if b then
      match env.env_edf with
      | some env_edf =>
        generate_environment_sample r1.gen env env_edf r1.sctx r1.samples
      | none => (⟨0, r1.samples, r1.gen, r1.sctx⟩ : ParticleResult)
     else
       (⟨0, r1.samples, r1.gen, r1.sctx⟩ :
         ParticleResult)).gen.path_count =
      r1.gen.path_count + (if b && env.env_edf.isSome then 1 else 0) := by
  cases b with
  | false => rfl
  | true =>
    cases he : env.env_edf with
    | none => simp [he]
    | some env_edf => simp [he]; rfl

theorem generate_samples_seq_lsc (g : Generator) (env : Env) (rng : RNG)
    (sequence_index : ℕ) (samples : List Sample) :
    (generate_samples_seq g env rng sequence_index
        samples).gen.light_sample_count =
      g.light_sample_count + 1 := by
  unfold generate_samples_seq
  dsimp only
  rw [seq_env_part_gen, seq_light_part_gen]

theorem run_units_lsc (env : Env) (rng : RNG) :
    ∀ (sequence_indices : List ℕ) (g : Generator) (samples : List Sample),
      (run_units env rng g samples sequence_indices).1.light_sample_count =
        g.light_sample_count + sequence_indices.length := by
  intro sequence_indices
  induction sequence_indices with
  | nil => intro g samples; simp [run_units]
  | cons i rest ih =>
    intro g samples
    simp [run_units, ih, generate_samples_seq_lsc, Nat.add_assoc,
      Nat.add_comm 1 rest.length]

/-- C2: Determinism (two-run property): for a fixed configuration, fixed
deterministic collaborators, identical RNG state and the same sequence
index, two invocations of the per-sequence generate_samples produce the
same appended sample sequence, the same returned count and the same final
generator state. -/
theorem generate_samples_deterministic
    (g1 g2 : Generator) (env1 env2 : Env) (rng1 rng2 : RNG)
    (i1 i2 : ℕ) (samples1 samples2 : List Sample)
    (hg : g1 = g2) (henv : env1 = env2) (hrng : rng1 = rng2)
    (hi : i1 = i2) (hs : samples1 = samples2) :
    generate_samples_seq g1 env1 rng1 i1 samples1 =
      generate_samples_seq g2 env2 rng2 i2 samples2 := by
  subst hg henv hrng hi hs
  rfl

/-- Witness for C2 at a concrete generator, environment and RNG. -/
theorem generate_samples_deterministic_witness :
    generate_samples_seq cGen cEnv cRng 0 [] =
      generate_samples_seq cGen cEnv cRng 0 [] :=
  generate_samples_deterministic cGen cGen cEnv cEnv cRng cRng 0 0 [] []
    rfl rfl rfl rfl rfl

/-- C3: Return-count contract: each per-sequence generate_samples call only
appends to the output list and returns exactly the number of Sample records
it appended. -/
theorem generate_samples_count_contract (g : Generator) (env : Env)
    (rng : RNG) (sequence_index : ℕ) (samples : List Sample) :
    ∃ d,
      (generate_samples_seq g env rng sequence_index samples).samples =
        samples ++ d ∧
      (generate_samples_seq g env rng sequence_index samples).count =
        d.length := by
  unfold generate_samples_seq
  dsimp only
  obtain ⟨d1, h1s, h1c⟩ :=
    seq_light_part_count env.has_lights_or_emitting_triangles g env
      (mkSamplingContext rng sequence_index) samples
  obtain ⟨d2, h2s, h2c⟩ := seq_env_part_count g.params.enable_ibl env _
  exact ⟨d1 ++ d2, by rw [h2s, h1s, List.append_assoc],
    by rw [h1c, h2c, List.length_append]⟩

/-- C10: Unit-of-work counting: every per-sequence invocation increments the
private light-sample counter by exactly one, whatever was drawn or emitted;
the batch entry point zeroes the counter and then reports to the
accumulation buffer an increment equal to the number of per-sequence units
of work performed in the batch. -/
theorem light_sample_counting (g : Generator) (env : Env) (rng : RNG)
    (sequence_index : ℕ) (samples : List Sample)
    (sequence_indices : List ℕ) (buffer : ℕ) :
    (generate_samples_seq g env rng sequence_index
        samples).gen.light_sample_count =
      g.light_sample_count + 1 ∧
    (generate_samples_batch g env rng sequence_indices samples
        buffer).2.2 =
      buffer + sequence_indices.length := by
  refine ⟨generate_samples_seq_lsc g env rng sequence_index samples, ?_⟩
  unfold generate_samples_batch
  dsimp only
  rw [run_units_lsc]
  simp

/-- C7: Caustic filter: for every next mode other than absorption,
accept_scattering returns false exactly when caustics are disabled and the
next mode is glossy or specular; it never depends on the previous mode. -/
theorem accept_scattering_spec (params : Parameters)
    (prev_mode next_mode : ScatteringMode)
    (h : next_mode ≠ ScatteringMode.absorption) :
    (accept_scattering params prev_mode next_mode = false ↔
      params.enable_caustics = false ∧
        (next_mode = ScatteringMode.glossy ∨
          next_mode = ScatteringMode.specular)) ∧
    (∀ prev_mode2,
      accept_scattering params prev_mode next_mode =
        accept_scattering params prev_mode2 next_mode) := by
  constructor
  · cases hc : params.enable_caustics <;> cases next_mode <;>
      simp [accept_scattering, has_glossy_or_specular, hc]
  · intro prev_mode2
    rfl

/-- Witness for C7: with caustics disabled the glossy bounce is rejected
independently of the previous mode. -/
theorem accept_scattering_spec_witness :
    (accept_scattering (mkParameters cParamArray) ScatteringMode.diffuse
        ScatteringMode.glossy = false ↔
      (mkParameters cParamArray).enable_caustics = false ∧
        (ScatteringMode.glossy = ScatteringMode.glossy ∨
          ScatteringMode.glossy = ScatteringMode.specular)) ∧
    (∀ prev_mode2,
      accept_scattering (mkParameters cParamArray) ScatteringMode.diffuse
          ScatteringMode.glossy =
        accept_scattering (mkParameters cParamArray) prev_mode2
          ScatteringMode.glossy) :=
  accept_scattering_spec (mkParameters cParamArray) ScatteringMode.diffuse
    ScatteringMode.glossy (by decide)

/-- C8: Zero-means-unbounded configuration mapping: a supplied
max_path_length or rr_min_path_length of 0 is stored as the maximum size_t
value, and any non-zero supplied value is stored unchanged. -/
theorem parameters_nz_mapping (params : ParamArray) (n m : ℕ) :
    (params.max_path_length = some 0 →
      (mkParameters params).max_path_length = unboundedSentinel) ∧
    (params.max_path_length = some n → n ≠ 0 →
      (mkParameters params).max_path_length = n) ∧
    (params.rr_min_path_length = some 0 →
      (mkParameters params).rr_min_path_length = unboundedSentinel) ∧
    (params.rr_min_path_length = some m → m ≠ 0 →
      (mkParameters params).rr_min_path_length = m) := by
  refine ⟨fun h => ?_, fun h hn => ?_, fun h => ?_, fun h hm => ?_⟩
  · simp [mkParameters, nz, h]
  · simp [mkParameters, nz, h, hn]
  · simp [mkParameters, nz, h]
  · simp [mkParameters, nz, h, hm]

/-- Witness for C8: zero maps to the sentinel and 5 is stored unchanged. -/
theorem parameters_nz_mapping_witness :
    (mkParameters cParamArray).max_path_length = unboundedSentinel ∧
    (mkParameters cParamArray).rr_min_path_length = 5 :=
  ⟨(parameters_nz_mapping cParamArray 0 5).1 rfl,
   (parameters_nz_mapping cParamArray 0 5).2.2.2 rfl (by decide)⟩

/-- C9: Default option values: with every option absent, Parameters stores
enable_ibl = true, enable_caustics = true, transparency_threshold = 0.001,
max_iterations = 1000, report_self_intersections = false, the default
max_path_length of 0 stored as the unbounded sentinel, and
rr_min_path_length = 3 (Russian roulette enabled by default from path
length 3). -/
theorem parameters_defaults :
    mkParameters emptyParamArray =
      { enable_ibl := true
        enable_caustics := true
        transparency_threshold := 1 / 1000
        max_iterations := 1000
        report_self_intersections := false
        max_path_length := unboundedSentinel
        rr_min_path_length := 3 } := by
  rfl

/-- C4: Area-light zero-bounce connection: visit_area_light_vertex emits at
most one Sample; it emits none when the camera connection fails, when the
cosine between the camera-ward direction and the shading normal is
nonpositive, or when the transmittance of the camera-ward segment (shadow
ray originating at light point minus camera outgoing) is exactly zero;
otherwise it emits exactly one Sample whose radiance is
light particle flux × transmittance × (cos alpha / distance) × importance
and whose distance is the camera outgoing norm. -/
theorem visit_area_light_vertex_spec (env : Env) (ls : LightSample)
    (fl : Spectrum) (t : ℚ) (st : PathVisitorState) :
    (env.connect_vertex t ls.point = none →
      visit_area_light_vertex env ls fl t st = st) ∧
    (∀ pos out imp, env.connect_vertex t ls.point = some (pos, out, imp) →
      (Vec3.dot (Vec3.neg out) ls.shading_normal ≤ 0 →
        visit_area_light_vertex env ls fl t st = st) ∧
      (0 < Vec3.dot (Vec3.neg out) ls.shading_normal →
        (env.trace_between (Vec3.sub ls.point out) ls.point t 0 = 0 →
          visit_area_light_vertex env ls fl t st = st) ∧
        (env.trace_between (Vec3.sub ls.point out) ls.point t 0 ≠ 0 →
          (visit_area_light_vertex env ls fl t st).samples =
            st.samples ++
              [{ position := pos
                 r := fl.r *
                   env.trace_between (Vec3.sub ls.point out) ls.point t 0 *
                   (Vec3.dot (Vec3.neg out) ls.shading_normal /
                     env.norm3 out) * imp
                 g := fl.g *
                   env.trace_between (Vec3.sub ls.point out) ls.point t 0 *
                   (Vec3.dot (Vec3.neg out) ls.shading_normal /
                     env.norm3 out) * imp
                 b := fl.b *
                   env.trace_between (Vec3.sub ls.point out) ls.point t 0 *
                   (Vec3.dot (Vec3.neg out) ls.shading_normal /
                     env.norm3 out) * imp
                 alpha := 1
                 distance := env.norm3 out }] ∧
          (visit_area_light_vertex env ls fl t st).sample_count =
            st.sample_count + 1))) := by
  constructor
  · intro h
    unfold visit_area_light_vertex
    rw [h]
  · intro pos out imp h
    refine ⟨fun hca => ?_, fun hca => ⟨fun htr => ?_, fun htr => ?_⟩⟩
    · unfold visit_area_light_vertex
      rw [h]
      dsimp only
      rw [if_pos hca]
    · unfold visit_area_light_vertex
      rw [h]
      dsimp only
      rw [if_neg (not_le.mpr hca), if_pos htr]
    · unfold visit_area_light_vertex
      rw [h]
      dsimp only
      rw [if_neg (not_le.mpr hca), if_neg htr]
      unfold emit_sample
      refine ⟨?_, rfl⟩
      dsimp only
      congr 1
      rw [List.cons.injEq]
      refine ⟨?_, rfl⟩
      rw [Sample.mk.injEq]
      refine ⟨rfl, ?_, ?_, ?_, rfl, rfl⟩ <;> simp [Spectrum.scale] <;> ring

/-- Witness for C4: with the concrete environment the connection succeeds,
the cosine is positive, the transmittance is one, and exactly the expected
record is appended. -/
theorem visit_area_light_vertex_spec_witness :
    (visit_area_light_vertex cEnv cLightSample ⟨1, 1, 1⟩ 0
        ⟨[], 0⟩).samples =
      [] ++
        [{ position := ⟨1/2, 1/2⟩
           r := 1 *
             cEnv.trace_between
               (Vec3.sub cLightSample.point ⟨0, 0, -1⟩)
               cLightSample.point 0 0 *
             (Vec3.dot (Vec3.neg ⟨0, 0, -1⟩) cLightSample.shading_normal /
               cEnv.norm3 ⟨0, 0, -1⟩) * 1
           g := 1 *
             cEnv.trace_between
               (Vec3.sub cLightSample.point ⟨0, 0, -1⟩)
               cLightSample.point 0 0 *
             (Vec3.dot (Vec3.neg ⟨0, 0, -1⟩) cLightSample.shading_normal /
               cEnv.norm3 ⟨0, 0, -1⟩) * 1
           b := 1 *
             cEnv.trace_between
               (Vec3.sub cLightSample.point ⟨0, 0, -1⟩)
               cLightSample.point 0 0 *
             (Vec3.dot (Vec3.neg ⟨0, 0, -1⟩) cLightSample.shading_normal /
               cEnv.norm3 ⟨0, 0, -1⟩) * 1
           alpha := 1
           distance := cEnv.norm3 ⟨0, 0, -1⟩ }] ∧
    (visit_area_light_vertex cEnv cLightSample ⟨1, 1, 1⟩ 0
        ⟨[], 0⟩).sample_count = 0 + 1 :=
  (((visit_area_light_vertex_spec cEnv cLightSample ⟨1, 1, 1⟩ 0
        ⟨[], 0⟩).2 ⟨1/2, 1/2⟩ ⟨0, 0, -1⟩ 1 rfl).2
      (by norm_num [Vec3.dot, Vec3.neg, cLightSample])).2
    (by norm_num [cEnv])

/-- C5: No-contribution outcomes in visit_vertex are silent: with no BSDF, a
failed camera connection, a nonnegative dot of camera outgoing with the
shading normal, zero transmittance or zero adjoint BSDF probability the
state is returned unchanged (no sample, no error); otherwise exactly one
Sample is appended with radiance
initial flux × throughput × BSDF value × transmittance × importance. -/
theorem visit_vertex_spec (env : Env) (iflux : Spectrum) (v : PathVertex)
    (st : PathVisitorState) :
    (v.bsdf = none → visit_vertex env iflux v st = st) ∧
    (∀ bsdf, v.bsdf = some bsdf →
      (env.connect_vertex v.time v.point = none →
        visit_vertex env iflux v st = st) ∧
      (∀ pos out imp,
        env.connect_vertex v.time v.point = some (pos, out, imp) →
        (0 ≤ Vec3.dot out v.shading_normal →
          visit_vertex env iflux v st = st) ∧
        (Vec3.dot out v.shading_normal < 0 →
          (env.trace_between (Vec3.sub v.point out) v.point v.time
              v.path_length = 0 →
            visit_vertex env iflux v st = st) ∧
          (env.trace_between (Vec3.sub v.point out) v.point v.time
              v.path_length ≠ 0 →
            ((bsdf.evaluate
                (flip_to_same_hemisphere v.geometric_normal
                  v.shading_normal)
                v.shading_basis v.outgoing
                (Vec3.neg (Vec3.sdiv out (env.norm3 out)))).2 = 0 →
              visit_vertex env iflux v st = st) ∧
            ((bsdf.evaluate
                (flip_to_same_hemisphere v.geometric_normal
                  v.shading_normal)
                v.shading_basis v.outgoing
                (Vec3.neg (Vec3.sdiv out (env.norm3 out)))).2 ≠ 0 →
              (visit_vertex env iflux v st).samples =
                st.samples ++
                  [{ position := pos
                     r := iflux.r * v.throughput.r *
                       (bsdf.evaluate
                         (flip_to_same_hemisphere v.geometric_normal
                           v.shading_normal)
                         v.shading_basis v.outgoing
                         (Vec3.neg (Vec3.sdiv out (env.norm3 out)))).1.r *
                       env.trace_between (Vec3.sub v.point out) v.point
                         v.time v.path_length * imp
                     g := iflux.g * v.throughput.g *
                       (bsdf.evaluate
                         (flip_to_same_hemisphere v.geometric_normal
                           v.shading_normal)
                         v.shading_basis v.outgoing
                         (Vec3.neg (Vec3.sdiv out (env.norm3 out)))).1.g *
                       env.trace_between (Vec3.sub v.point out) v.point
                         v.time v.path_length * imp
                     b := iflux.b * v.throughput.b *
                       (bsdf.evaluate
                         (flip_to_same_hemisphere v.geometric_normal
                           v.shading_normal)
                         v.shading_basis v.outgoing
                         (Vec3.neg (Vec3.sdiv out (env.norm3 out)))).1.b *
                       env.trace_between (Vec3.sub v.point out) v.point
                         v.time v.path_length * imp
                     alpha := 1
                     distance := env.norm3 out }] ∧
              (visit_vertex env iflux v st).sample_count =
                st.sample_count + 1))))) := by
  constructor
  · intro h
    unfold visit_vertex
    rw [h]
  · intro bsdf hb
    constructor
    · intro h
      unfold visit_vertex
      rw [hb]
      dsimp only
      rw [h]
    · intro pos out imp h
      refine ⟨fun hdot => ?_,
        fun hdot => ⟨fun htr => ?_,
          fun htr => ⟨fun hprob => ?_, fun hprob => ?_⟩⟩⟩
      · unfold visit_vertex
        rw [hb]
        dsimp only
        rw [h]
        dsimp only
        rw [if_pos hdot]
      · unfold visit_vertex
        rw [hb]
        dsimp only
        rw [h]
        dsimp only
        rw [if_neg (not_le.mpr hdot), if_pos htr]
      · unfold visit_vertex
        rw [hb]
        dsimp only
        rw [h]
        dsimp only
        rw [if_neg (not_le.mpr hdot), if_neg htr, if_pos hprob]
      · unfold visit_vertex
        rw [hb]
        dsimp only
        rw [h]
        dsimp only
        rw [if_neg (not_le.mpr hdot), if_neg htr, if_neg hprob]
        unfold emit_sample
        refine ⟨?_, rfl⟩
        dsimp only
        congr 1
        rw [List.cons.injEq]
        refine ⟨?_, rfl⟩
        rw [Sample.mk.injEq]
        refine ⟨rfl, ?_, ?_, ?_, rfl, rfl⟩ <;>
          simp [Spectrum.scale, Spectrum.mul] <;> ring

/-- Witness for C5: with the concrete environment and vertex the connection
succeeds, the vertex faces the camera, the transmittance and the BSDF
probability are one, and exactly one record is appended. -/
theorem visit_vertex_spec_witness :
    (visit_vertex cEnv ⟨1, 1, 1⟩ cVertex ⟨[], 0⟩).samples =
      [] ++
        [{ position := ⟨1/2, 1/2⟩
           r := (1 : ℚ) * cVertex.throughput.r *
             (cBSDF.evaluate
               (flip_to_same_hemisphere cVertex.geometric_normal
                 cVertex.shading_normal)
               cVertex.shading_basis cVertex.outgoing
               (Vec3.neg (Vec3.sdiv ⟨0, 0, -1⟩
                 (cEnv.norm3 ⟨0, 0, -1⟩)))).1.r *
             cEnv.trace_between (Vec3.sub cVertex.point ⟨0, 0, -1⟩)
               cVertex.point cVertex.time cVertex.path_length * 1
           g := (1 : ℚ) * cVertex.throughput.g *
             (cBSDF.evaluate
               (flip_to_same_hemisphere cVertex.geometric_normal
                 cVertex.shading_normal)
               cVertex.shading_basis cVertex.outgoing
               (Vec3.neg (Vec3.sdiv ⟨0, 0, -1⟩
                 (cEnv.norm3 ⟨0, 0, -1⟩)))).1.g *
             cEnv.trace_between (Vec3.sub cVertex.point ⟨0, 0, -1⟩)
               cVertex.point cVertex.time cVertex.path_length * 1
           b := (1 : ℚ) * cVertex.throughput.b *
             (cBSDF.evaluate
               (flip_to_same_hemisphere cVertex.geometric_normal
                 cVertex.shading_normal)
               cVertex.shading_basis cVertex.outgoing
               (Vec3.neg (Vec3.sdiv ⟨0, 0, -1⟩
                 (cEnv.norm3 ⟨0, 0, -1⟩)))).1.b *
             cEnv.trace_between (Vec3.sub cVertex.point ⟨0, 0, -1⟩)
               cVertex.point cVertex.time cVertex.path_length * 1
           alpha := 1
           distance := cEnv.norm3 ⟨0, 0, -1⟩ }] ∧
    (visit_vertex cEnv ⟨1, 1, 1⟩ cVertex ⟨[], 0⟩).sample_count = 0 + 1 :=
  (((((visit_vertex_spec cEnv ⟨1, 1, 1⟩ cVertex ⟨[], 0⟩).2 cBSDF rfl).2
        ⟨1/2, 1/2⟩ ⟨0, 0, -1⟩ 1 rfl).2
      (by norm_num [Vec3.dot, cVertex])).2
    (by norm_num [cEnv])).2 (by norm_num [cBSDF])

theorem cEnv_nonneg : EnvNonneg cEnv := by
  refine ⟨fun a b t d => ?_, fun t p r h => ?_, fun v => ?_⟩
  · norm_num [cEnv]
  · simp only [cEnv] at h
    cases h
    norm_num
  · norm_num [cEnv]

/-- C1: Every Sample record appended by emit_sample has alpha exactly 1,
and whenever the collaborator-supplied radiometric quantities are
nonnegative, every record appended by a visitor callback has nonnegative
RGB channels, i.e. the assertion that the minimum radiance channel is
nonnegative holds at every emit_sample call site. -/
theorem emitted_sample_invariants (env : Env) (henv : EnvNonneg env) :
    (∀ pos dist rad st,
      (emit_sample pos dist rad st).samples =
        st.samples ++ [⟨pos, rad.r, rad.g, rad.b, 1, dist⟩]) ∧
    (∀ ls fl t st, Spectrum.Nonneg fl →
      ∀ s ∈ (visit_area_light_vertex env ls fl t st).samples,
        s ∈ st.samples ∨
          (GoodSample s ∧ emit_sample_assertion ⟨s.r, s.g, s.b⟩)) ∧
    (∀ lv fl t st, Spectrum.Nonneg fl →
      ∀ s ∈ (visit_non_physical_light_vertex env lv fl t st).samples,
        s ∈ st.samples ∨
          (GoodSample s ∧ emit_sample_assertion ⟨s.r, s.g, s.b⟩)) ∧
    (∀ iflux v st, Spectrum.Nonneg iflux → Spectrum.Nonneg v.throughput →
      (∀ bsdf, v.bsdf = some bsdf → BSDFNonneg bsdf) →
      ∀ s ∈ (visit_vertex env iflux v st).samples,
        s ∈ st.samples ∨
          (GoodSample s ∧ emit_sample_assertion ⟨s.r, s.g, s.b⟩)) := by
  obtain ⟨htrace, hconn, hnorm⟩ := henv
  refine ⟨fun pos dist rad st => rfl, ?_, ?_, ?_⟩
  · intro ls fl t st hfl s hs
    unfold visit_area_light_vertex at hs
    cases h : env.connect_vertex t ls.point with
    | none => rw [h] at hs; exact Or.inl hs
    | some r =>
      obtain ⟨pos, out, imp⟩ := r
      rw [h] at hs
      dsimp only at hs
      split_ifs at hs with h1 h2
      · exact Or.inl hs
      · exact Or.inl hs
      · unfold emit_sample at hs
        dsimp only at hs
        rw [List.mem_append] at hs
        rcases hs with hs | hs
        · exact Or.inl hs
        · right
          rw [List.mem_singleton] at hs
          subst hs
          have himp : (0:ℚ) ≤ imp := hconn t ls.point (pos, out, imp) h
          have hk :
              (0:ℚ) ≤
                env.trace_between (Vec3.sub ls.point out) ls.point t 0 *
                  (Vec3.dot (Vec3.neg out) ls.shading_normal /
                    env.norm3 out) * imp :=
            mul_nonneg
              (mul_nonneg (htrace _ _ _ _)
                (div_nonneg (not_le.mp h1).le (hnorm out))) himp
          refine ⟨⟨rfl, ?_, ?_, ?_⟩, ?_⟩
          · exact mul_nonneg hfl.1 hk
          · exact mul_nonneg hfl.2.1 hk
          · exact mul_nonneg hfl.2.2 hk
          · unfold emit_sample_assertion min_value
            dsimp only
            exact le_min (mul_nonneg hfl.1 hk)
              (le_min (mul_nonneg hfl.2.1 hk) (mul_nonneg hfl.2.2 hk))
  · intro lv fl t st hfl s hs
    unfold visit_non_physical_light_vertex at hs
    cases h : env.connect_vertex t lv with
    | none => rw [h] at hs; exact Or.inl hs
    | some r =>
      obtain ⟨pos, out, imp⟩ := r
      rw [h] at hs
      dsimp only at hs
      split_ifs at hs with h1
      · exact Or.inl hs
      · unfold emit_sample at hs
        dsimp only at hs
        rw [List.mem_append] at hs
        rcases hs with hs | hs
        · exact Or.inl hs
        · right
          rw [List.mem_singleton] at hs
          subst hs
          have himp : (0:ℚ) ≤ imp := hconn t lv (pos, out, imp) h
          have hk :
              (0:ℚ) ≤
                env.trace_between (Vec3.sub lv out) lv t 0 * imp :=
            mul_nonneg (htrace _ _ _ _) himp
          refine ⟨⟨rfl, ?_, ?_, ?_⟩, ?_⟩
          · exact mul_nonneg hfl.1 hk
          · exact mul_nonneg hfl.2.1 hk
          · exact mul_nonneg hfl.2.2 hk
          · unfold emit_sample_assertion min_value
            dsimp only
            exact le_min (mul_nonneg hfl.1 hk)
              (le_min (mul_nonneg hfl.2.1 hk) (mul_nonneg hfl.2.2 hk))
  · intro iflux v st hifl hth hb s hs
    unfold visit_vertex at hs
    cases hbsdf : v.bsdf with
    | none => rw [hbsdf] at hs; exact Or.inl hs
    | some bsdf =>
      rw [hbsdf] at hs
      dsimp only at hs
      cases h : env.connect_vertex v.time v.point with
      | none => rw [h] at hs; exact Or.inl hs
      | some r =>
        obtain ⟨pos, out, imp⟩ := r
        rw [h] at hs
        dsimp only at hs
        split_ifs at hs with h1 h2 h3
        · exact Or.inl hs
        · exact Or.inl hs
        · exact Or.inl hs
        · unfold emit_sample at hs
          dsimp only at hs
          rw [List.mem_append] at hs
          rcases hs with hs | hs
          · exact Or.inl hs
          · right
            rw [List.mem_singleton] at hs
            subst hs
            have himp : (0:ℚ) ≤ imp := hconn v.time v.point (pos, out, imp) h
            have hval := hb bsdf hbsdf
              (flip_to_same_hemisphere v.geometric_normal v.shading_normal)
              v.shading_basis v.outgoing
              (Vec3.neg (Vec3.sdiv out (env.norm3 out)))
            have hk :
                (0:ℚ) ≤
                  env.trace_between (Vec3.sub v.point out) v.point v.time
                    v.path_length * imp :=
              mul_nonneg (htrace _ _ _ _) himp
            have hr1 := mul_nonneg (mul_nonneg
              (mul_nonneg hifl.1 hth.1) hval.1) hk
            have hr2 := mul_nonneg (mul_nonneg
              (mul_nonneg hifl.2.1 hth.2.1) hval.2.1) hk
            have hr3 := mul_nonneg (mul_nonneg
              (mul_nonneg hifl.2.2 hth.2.2) hval.2.2) hk
            refine ⟨⟨rfl, hr1, hr2, hr3⟩, ?_⟩
            unfold emit_sample_assertion min_value
            dsimp only
            exact le_min hr1 (le_min hr2 hr3)

/-- Witness for C1: the record emitted by the concrete area-light
connection is well formed. -/
theorem emitted_sample_invariants_witness :
    cSample ∈ (⟨[], 0⟩ : PathVisitorState).samples ∨
      (GoodSample cSample ∧
        emit_sample_assertion ⟨cSample.r, cSample.g, cSample.b⟩) :=
  (emitted_sample_invariants cEnv cEnv_nonneg).2.1 cLightSample ⟨1, 1, 1⟩ 0
    ⟨[], 0⟩ (by norm_num [Spectrum.Nonneg]) cSample
    (by norm_num [visit_area_light_vertex, cEnv, cLightSample, emit_sample,
      Vec3.dot, Vec3.neg, Vec3.sub, Spectrum.scale, cSample])

/-- C6: Environment particle construction: the constructor stores
disk point probability 1 / (π r²); the setup's initial flux equals the
environment value divided by (disk point probability × environment
probability), its ray origin is the scene center offset by the safe scene
diameter along the negated-direction basis normal and recentered by the
disk point in the tangent basis, the disk point being the uniform disk
sample scaled by the scene radius; and a per-sequence call traces an
environment particle (one extra path) exactly when image-based lighting is
enabled and an environment EDF is present. -/
theorem environment_particle_spec :
    (∀ (params : Parameters) (scene : SceneRenderData)
        (camera : CameraShutter),
      (mkGenerator params scene camera).disk_point_prob =
        1 / (floatPi * (scene.radius * scene.radius))) ∧
    (∀ (g : Generator) (env : Env)
        (env_edf : Vec2 → Vec3 × Spectrum × ℚ) (sc : SamplingContext),
      (environment_sample_setup g env env_edf sc).outgoing =
        (env_edf ((sc.split 2 1).next_pair.1)).1 ∧
      (environment_sample_setup g env env_edf sc).env_edf_value =
        (env_edf ((sc.split 2 1).next_pair.1)).2.1 ∧
      (environment_sample_setup g env env_edf sc).env_edf_prob =
        (env_edf ((sc.split 2 1).next_pair.1)).2.2 ∧
      (environment_sample_setup g env env_edf sc).initial_flux =
        Spectrum.sdiv (environment_sample_setup g env env_edf sc).env_edf_value
          (g.disk_point_prob *
            (environment_sample_setup g env env_edf sc).env_edf_prob) ∧
      (environment_sample_setup g env env_edf sc).p =
        Vec2.smul g.scene_radius
          (env.sample_disk_uniform
            ((((sc.split 2 1).next_pair.2).split 2 1).next_pair.1)) ∧
      (environment_sample_setup g env env_edf sc).ray_origin =
        Vec3.add
          (Vec3.add
            (Vec3.sub g.scene_center
              (Vec3.smul g.safe_scene_diameter
                (env.mk_basis
                  (Vec3.neg
                    (environment_sample_setup g env env_edf
                        sc).outgoing)).normal))
            (Vec3.smul (environment_sample_setup g env env_edf sc).p.x
              (env.mk_basis
                (Vec3.neg
                  (environment_sample_setup g env env_edf
                      sc).outgoing)).tangent_u))
          (Vec3.smul (environment_sample_setup g env env_edf sc).p.y
            (env.mk_basis
              (Vec3.neg
                (environment_sample_setup g env env_edf
                    sc).outgoing)).tangent_v)) ∧
    (∀ (g : Generator) (env : Env) (rng : RNG) (sequence_index : ℕ)
        (samples : List Sample),
      (generate_samples_seq g env rng sequence_index
          samples).gen.path_count =
        g.path_count +
          (if env.has_lights_or_emitting_triangles then 1 else 0) +
          (if g.params.enable_ibl && env.env_edf.isSome then 1 else 0)) := by
  refine ⟨fun params scene camera => rfl,
    fun g env env_edf sc => ⟨rfl, rfl, rfl, rfl, rfl, rfl⟩, ?_⟩
  intro g env rng sequence_index samples
  unfold generate_samples_seq
  dsimp only
  rw [seq_env_part_pc, seq_light_part_pc]

end LightTracing
